import Mathlib

set_option linter.unusedVariables false

/-!
Shallow embedding of the mcp-server-servicenow tool dispatcher
(src/main.py, `handle_call_tool`) together with the surface of the
ServiceNow client and Gemini model it talks to (src/server.py).

Remote collaborators (the ServiceNow REST API, the generative model, and
the standard-library JSON parser called by the dispatcher) are modelled
as an `Env` of response oracles; every call the dispatcher makes is
recorded in a trace of `Effect`s, and every place where the Python code
can raise is an `Except String` error carrying the `str(e)` message.
-/

/-- Python/JSON values as they flow through the dispatcher: tool argument
mappings, record payloads and remote results. Numbers are modelled as
integers (no floating point value appears in any path the claims touch);
object fields keep insertion order, as Python dicts do. -/
inductive Value where
  | null
  | bool (b : Bool)
  | num (n : Int)
  | str (s : String)
  | arr (xs : List Value)
  | obj (kvs : List (String × Value))

/-- An argument mapping, i.e. the `arguments: dict` the host passes in. -/
abbrev Args := List (String × Value)

/-- Python `d.get(k, default)` on a dict (never raises). -/
def argGetD (a : Args) (k : String) (d : Value) : Value :=
  match a.find? (fun p => p.1 == k) with
  | some p => p.2
  | none => d

/-- Python `d.get(k)` on a dict: `None` when the key is absent. -/
def argGet (a : Args) (k : String) : Value :=
  argGetD a k Value.null

/-- Python truthiness, as used in `if sys_id:`, `if priority:`, `if not results:`. -/
def Value.truthy : Value → Bool
  | .null => false
  | .bool b => b
  | .num n => n != 0
  | .str s => s != ""
  | .arr xs => !xs.isEmpty
  | .obj kvs => !kvs.isEmpty

/-- The Python type name, used in `str(e)` texts of attribute errors. -/
def Value.typeName : Value → String
  | .null => "NoneType"
  | .bool _ => "bool"
  | .num _ => "int"
  | .str _ => "str"
  | .arr _ => "list"
  | .obj _ => "dict"

/-- Python `v == "lit"` for a string literal: true exactly for an equal
string, false (not an error) for every other type. -/
def Value.eqStr : Value → String → Bool
  | .str s, t => s == t
  | _, _ => false

/-- Python `v.get(k, default)`: dict lookup, raising `AttributeError`
when `v` is not a dict (the error text carries `str(e)`). -/
def Value.pyGetD (v : Value) (k : String) (d : Value) : Except String Value :=
  match v with
  | .obj kvs => Except.ok (argGetD kvs k d)
  | v => Except.error ("\x27" ++ v.typeName ++ "\x27 object has no attribute \x27get\x27")

/-- Python `v.get(k)` with its implicit `None` default. -/
def Value.pyGet (v : Value) (k : String) : Except String Value :=
  v.pyGetD k Value.null

/-- Python `for x in v`: lists yield their elements, strings their
characters, dicts their keys; other values raise `TypeError`. -/
def Value.pyIter : Value → Except String (List Value)
  | .arr xs => Except.ok xs
  | .str s => Except.ok (s.data.map (fun c => Value.str (String.mk [c])))
  | .obj kvs => Except.ok (kvs.map (fun p => Value.str p.1))
  | v => Except.error ("\x27" ++ v.typeName ++ "\x27 object is not iterable")

/-- Python `repr`, fuel-bounded (CPython itself is bounded by its
recursion limit of about 1000); every value evaluated in this
development is shallow. String escape sequences are not modelled. -/
def reprFuel : Nat → Value → String
  | _, .null => "None"
  | _, .bool true => "True"
  | _, .bool false => "False"
  | _, .num n => toString n
  | _, .str s => "\x27" ++ s ++ "\x27"
  | 0, .arr _ => ""
  | 0, .obj _ => ""
  | f+1, .arr xs => "[" ++ String.intercalate ", " (xs.map (reprFuel f)) ++ "]"
  | f+1, .obj kvs =>
      "\x7b" ++
        String.intercalate ", "
          (kvs.map (fun p => "\x27" ++ p.1 ++ "\x27: " ++ reprFuel f p.2)) ++
      "\x7d"

/-- Python `repr(v)`. -/
def Value.reprPy (v : Value) : String := reprFuel 1000 v

/-- Python `str(v)`, as interpolated by f-strings: the string itself for
a str, `repr` otherwise. -/
def Value.toText : Value → String
  | .str s => s
  | v => v.reprPy

/-- Spaces for `json.dumps` indentation. -/
def pad (n : Nat) : String := String.mk (List.replicate n ' ')

/-- Python `json.dumps(v, indent=2)`, fuel-bounded like `reprFuel`.
String escape sequences are not modelled. -/
def dumpsFuel : Nat → Nat → Value → String
  | _, _, .null => "null"
  | _, _, .bool true => "true"
  | _, _, .bool false => "false"
  | _, _, .num n => toString n
  | _, _, .str s => "\"" ++ s ++ "\""
  | _, _, .arr [] => "[]"
  | _, _, .obj [] => "\x7b\x7d"
  | 0, _, .arr _ => ""
  | 0, _, .obj _ => ""
  | f+1, ind, .arr (x :: xs) =>
      "[\n" ++
        String.intercalate ",\n"
          ((x :: xs).map (fun v => pad (ind + 2) ++ dumpsFuel f (ind + 2) v)) ++
      "\n" ++ pad ind ++ "]"
  | f+1, ind, .obj (p :: ps) =>
      "\x7b\n" ++
        String.intercalate ",\n"
          ((p :: ps).map (fun q =>
            pad (ind + 2) ++ "\"" ++ q.1 ++ "\": " ++ dumpsFuel f (ind + 2) q.2)) ++
      "\n" ++ pad ind ++ "\x7d"

/-- Python `json.dumps(v, indent=2)`. -/
def jsonDumps2 (v : Value) : String := dumpsFuel 1000 0 v

/-- Python `", ".join(vs)` over a list of values: concatenates string
items, raising `TypeError` at the first non-string item. -/
def pyJoin (sep : String) : List Value → Except String String
  | [] => Except.ok ""
  | [Value.str s] => Except.ok s
  | Value.str s :: v :: rest =>
      match pyJoin sep (v :: rest) with
      | Except.ok r => Except.ok (s ++ sep ++ r)
      | Except.error e => Except.error e
  | v :: _ =>
      Except.error ("sequence item: expected str instance, " ++ v.typeName ++ " found")

/-- Python `sep.join(l)` over a list that is already all strings. -/
def pyJoinStr (sep : String) : List String → String
  | [] => ""
  | [s] => s
  | s :: rest => s ++ sep ++ pyJoinStr sep rest

/-- Characters stripped by Python `str.strip()` (the ASCII whitespace
set; the dispatcher never meets other Unicode whitespace). -/
def pySpace (c : Char) : Bool :=
  c == ' ' || c == '\t' || c == '\n' || c == '\r' || c == '\x0b' || c == '\x0c'

/-- Python `str.strip()` on a character list. -/
def stripL (l : List Char) : List Char :=
  ((l.dropWhile pySpace).reverse.dropWhile pySpace).reverse

/-- Python `str.strip()`. -/
def pyStrip (s : String) : String := String.mk (stripL s.data)

/-- One scan of Python `str.split(sep)`: fuel-bounded so that it reduces
in the kernel; the wrapper passes the input length as fuel, which the
scan never exhausts because every step consumes at least one character. -/
def splitSepAux (sep : List Char) : Nat → List Char → List Char → List (List Char)
  | _, [], acc => [acc.reverse]
  | 0, l, acc => [acc.reverse ++ l]
  | fuel+1, c :: rest, acc =>
    if sep.isPrefixOf (c :: rest) then
      acc.reverse :: splitSepAux sep fuel (List.drop (sep.length - 1) rest) []
    else
      splitSepAux sep fuel rest (c :: acc)

/-- Python `s.split(sep)` for a non-empty separator: splits at every
non-overlapping occurrence, scanning left to right. -/
def pySplit (s sep : String) : List String :=
  (splitSepAux sep.data s.data.length s.data []).map String.mk

/-- Python `sub in s` (substring containment). -/
def subInAux (sub : List Char) : List Char → Bool
  | [] => sub.isEmpty
  | c :: rest => sub.isPrefixOf (c :: rest) || subInAux sub rest

/-- Python `sub in s`. -/
def pyIn (sub s : String) : Bool := subInAux sub.data s.data

/-- The code-fence extraction of `smart_incident` (src/main.py lines
187-192): strip the model output, then cut out the first fenced block,
preferring a ```json fence; the indexing `[1]` is guarded by the `in`
checks, and `[0]` of a split always exists, so this never raises. -/
def extractJsonText (raw : String) : String :=
  let text := pyStrip raw
  if pyIn "```json" text then
    pyStrip (((pySplit ((pySplit text "```json").getD 1 "") "```").getD 0 ""))
  else if pyIn "```" text then
    pyStrip (((pySplit ((pySplit text "```").getD 1 "") "```").getD 0 ""))
  else text

/-- One remote or library interaction performed by the dispatcher, in
the order it was issued. `jsonLoads` records the exact string handed to
the standard-library JSON parser; `logError` records the top-level
boundary writing to the logger. -/
inductive Effect where
  | createRecord (table : String) (data : Value)
  | getRecord (table : String) (sysId : Value)
  | updateRecord (table : String) (sysId : Value) (data : Value)
  | listRecords (table : String) (params : List (String × Value))
  | genContent (prompt : String)
  | jsonLoads (text : String)
  | logError (msg : String)

def Effect.isLogError : Effect → Bool
  | .logError _ => true
  | _ => false

def Effect.isCreateRecord : Effect → Bool
  | .createRecord _ _ => true
  | _ => false

def Effect.isListRecords : Effect → Bool
  | .listRecords _ _ => true
  | _ => false

/-- Responses of the external collaborators: the ServiceNow table API
(one oracle per client primitive, an `error` being any exception the
client call raises, e.g. the unconfigured-client `ValueError` or a
non-2xx `raise_for_status`), the Gemini model, and the JSON parser. -/
structure Env where
  createResp : String → Value → Except String Value
  getResp : String → Value → Except String Value
  updateResp : String → Value → Value → Except String Value
  listResp : String → List (String × Value) → Except String (List Value)
  modelConfigured : Bool
  genResp : String → Except String String
  jsonLoadsFn : String → Except String Value

/-- The dispatcher computation: reads the environment, appends to the
effect trace, and either returns a value or carries a raised exception
(its `str(e)` text). -/
def M (α : Type) : Type := Env → List Effect → List Effect × Except String α

instance : Monad M where
  pure a := fun _ tr => (tr, Except.ok a)
  bind x f := fun env tr =>
    match x env tr with
    | (tr1, Except.ok a) => f a env tr1
    | (tr1, Except.error e) => (tr1, Except.error e)

/-- Lift a possibly-raising pure step (attribute access, join, iteration). -/
def liftE {α : Type} (r : Except String α) : M α := fun _ tr => (tr, r)

/-- Raise an exception. -/
def raiseM {α : Type} (msg : String) : M α := fun _ tr => (tr, Except.error msg)

/-- Python `try ... except Exception as e`: effects performed before the
raise are kept, and the handler runs from there. -/
def tryCatchM {α : Type} (x : M α) (h : String → M α) : M α := fun env tr =>
  match x env tr with
  | (tr1, Except.ok a) => (tr1, Except.ok a)
  | (tr1, Except.error e) => h e env tr1

/-- `sn_client.create_record(table, data)` (src/server.py line 105). -/
def createRecordM (table : String) (data : Value) : M Value := fun env tr =>
  (tr ++ [Effect.createRecord table data], env.createResp table data)

/-- `sn_client.get_record(table, sys_id)` (src/server.py line 108). -/
def getRecordM (table : String) (sysId : Value) : M Value := fun env tr =>
  (tr ++ [Effect.getRecord table sysId], env.getResp table sysId)

/-- `sn_client.update_record(table, sys_id, data)` (src/server.py line 111). -/
def updateRecordM (table : String) (sysId : Value) (data : Value) : M Value := fun env tr =>
  (tr ++ [Effect.updateRecord table sysId data], env.updateResp table sysId data)

/-- `sn_client.list_records(table, params)` (src/server.py line 114). -/
def listRecordsM (table : String) (params : List (String × Value)) : M (List Value) := fun env tr =>
  (tr ++ [Effect.listRecords table params], env.listResp table params)

/-- `model.generate_content(prompt).text` (raises whenever the API call does). -/
def genContentM (prompt : String) : M String := fun env tr =>
  (tr ++ [Effect.genContent prompt], env.genResp prompt)

/-- `json.loads(text)` (raises `JSONDecodeError` on invalid input). -/
def jsonLoadsM (text : String) : M Value := fun env tr =>
  (tr ++ [Effect.jsonLoads text], env.jsonLoadsFn text)

/-- The truthiness of the module-level `model` singleton (src/server.py
lines 64-68): configured exactly when a Gemini API key was present. -/
def modelIsConfigured : M Bool := fun env tr => (tr, Except.ok env.modelConfigured)

/-- The fixed prompt of `smart_incident` (src/main.py lines 176-184),
with the unstructured text interpolated as Python str() does. -/
def smartIncidentPrompt (t : Value) : String :=
  "\n            Analyze the following issue report and extract structured details for a ServiceNow incident.\n            Output ONLY a JSON object with: short_description, description, urgency (1, 2, or 3), impact (1, 2, or 3).\n            \n            Report: " ++
  t.toText ++
  "\n            \n            Default to urgency 3 and impact 3 if not clear.\n            JSON:\n            "

/-- The fixed prompt of `smart_kb_generator` (src/main.py lines 203-211). -/
def smartKbPrompt (aud src : Value) : String :=
  "\n            Convert the following content into a professional ServiceNow Knowledge Base article.\n            Format the output in HTML. Include a clear title and structured body (h1, p, ul/li).\n            \n            Target Audience: " ++
  aud.toText ++
  "\n            Source: " ++
  src.toText ++
  "\n            \n            Output ONLY the HTML body content.\n            "

/-- The `assignment_group` / `assigned_to` rendering of `get_incident`
(src/main.py lines 133-134): the display value when the field is a dict,
the literal `Unassigned` otherwise. -/
def groupDisplay (v : Value) : String :=
  match v with
  | Value.obj g => (argGetD g "display_value" (Value.str "Unassigned")).toText
  | _ => "Unassigned"

/-- The tail of `get_incident` (src/main.py lines 125-137): the
format-check on the fetched record and the rendered detail lines. -/
def incidentDetails (number sysId result : Value) : List String :=
  match result with
  | Value.obj kvs =>
      [pyJoinStr "\n"
        ["Number: " ++ (argGetD kvs "number" (Value.str "N/A")).toText,
         "State: " ++ (argGetD kvs "incident_state" (argGetD kvs "state" (Value.str "N/A"))).toText,
         "Priority: " ++ (argGetD kvs "priority" (Value.str "N/A")).toText,
         "Short Description: " ++ (argGetD kvs "short_description" (Value.str "N/A")).toText,
         "Assignment Group: " ++ groupDisplay (argGet kvs "assignment_group"),
         "Assigned To: " ++ groupDisplay (argGet kvs "assigned_to"),
         "Updated: " ++ (argGetD kvs "sys_updated_on" (Value.str "N/A")).toText]]
  | r =>
      ["Error: Unexpected response format from ServiceNow for incident " ++
        (if number.truthy then number else sysId).toText ++ ". Got: " ++ r.toText]

/-- The per-record lines of `list_incidents` (src/main.py lines 167-168);
`r.get` raises when a listed record is not a dict. -/
def incidentLines : List Value → Except String (List String)
  | [] => Except.ok []
  | r :: rest => do
      let n ← r.pyGet "number"
      let sd ← r.pyGet "short_description"
      let st ← r.pyGet "state"
      let pr ← r.pyGet "priority"
      let restL ← incidentLines rest
      Except.ok (("- " ++ n.toText ++ ": " ++ sd.toText ++
        " (State: " ++ st.toText ++ ", Priority: " ++ pr.toText ++ ")") :: restL)

/-- The variables loop of `create_record_producer` (src/main.py lines
78-88): one `item_option_new` creation per entry, in input order, each
referencing the parent via `cat_item`, with the type-string translated
by the inline lookup; collects each created variable name. -/
def producerVarsLoop (pid : Value) : List Value → M (List Value)
  | [] => pure []
  | v :: rest => do
      let nm ← liftE (v.pyGet "name")
      let lbl ← liftE (v.pyGet "label")
      let ty ← liftE (v.pyGet "type")
      let mand ← liftE (v.pyGetD "mandatory" (Value.bool false))
      let varData := Value.obj
        [("cat_item", pid), ("name", nm), ("question_text", lbl),
         ("type", if ty.eqStr "string" then Value.num 6
                  else if ty.eqStr "choice" then Value.num 1 else Value.num 2),
         ("mandatory", mand)]
      let vres ← createRecordM "item_option_new" varData
      let vname ← liftE (vres.pyGet "name")
      let names ← producerVarsLoop pid rest
      pure (vname :: names)

/-- The variables loop of `create_variable_set` (src/main.py lines
100-107): one `item_option_new` creation per entry referencing the
parent via `variable_set`; no type field, and results are discarded. -/
def variableSetLoop (sid : Value) : List Value → M Unit
  | [] => pure ()
  | v :: rest => do
      let nm ← liftE (v.pyGet "name")
      let lbl ← liftE (v.pyGet "label")
      let mand ← liftE (v.pyGetD "mandatory" (Value.bool false))
      let varData := Value.obj
        [("variable_set", sid), ("name", nm), ("question_text", lbl), ("mandatory", mand)]
      let _ ← createRecordM "item_option_new" varData
      variableSetLoop sid rest

/-- The body of `handle_call_tool` (src/main.py lines 14-226): the
`if/elif` dispatch on the tool name, before the top-level `except`
boundary. An `error` outcome is an exception propagating out of the
body; the inner `try/except` of `smart_incident` is `tryCatchM`. -/
def runBody (name : String) (args : Args) : M (List String) :=
  if name == "create_incident" then do
    let result ← createRecordM "incident" (Value.obj args)
    let n ← liftE (result.pyGet "number")
    let sid ← liftE (result.pyGet "sys_id")
    pure ["Incident created successfully: " ++ n.toText ++ " (sys_id: " ++ sid.toText ++ ")"]
  else if name == "create_kb_article" then do
    let data := Value.obj
      [("short_description", argGet args "short_description"),
       ("text", argGet args "article_body"),
       ("workflow_state", argGetD args "workflow_state" (Value.str "draft")),
       ("kb_knowledge_base", argGet args "kb_knowledge_base")]
    let result ← createRecordM "kb_knowledge" data
    let n ← liftE (result.pyGet "number")
    let sid ← liftE (result.pyGet "sys_id")
    pure ["KB Article created successfully: " ++ n.toText ++ " (sys_id: " ++ sid.toText ++ ")"]
  else if name == "create_client_script" then do
    let data := Value.obj
      [("name", argGet args "name"),
       ("table", argGet args "table"),
       ("script", argGet args "script"),
       ("type", argGet args "script_type"),
       ("field", argGet args "field_name"),
       ("active", argGetD args "active" (Value.bool true))]
    let result ← createRecordM "sys_script_client" data
    let n ← liftE (result.pyGet "name")
    let sid ← liftE (result.pyGet "sys_id")
    pure ["Client Script created: " ++ n.toText ++ " (sys_id: " ++ sid.toText ++ ")"]
  else if name == "create_business_rule" then do
    let data := Value.obj
      [("name", argGet args "name"),
       ("collection", argGet args "table"),
       ("script", argGet args "script"),
       ("when_toggle", argGet args "when"),
       ("action_insert", argGetD args "action_insert" (Value.bool true)),
       ("action_update", argGetD args "action_update" (Value.bool false)),
       ("action_delete", argGetD args "action_delete" (Value.bool false)),
       ("action_query", argGetD args "action_query" (Value.bool false)),
       ("active", argGetD args "active" (Value.bool true))]
    let result ← createRecordM "sys_script" data
    let n ← liftE (result.pyGet "name")
    let sid ← liftE (result.pyGet "sys_id")
    pure ["Business Rule created: " ++ n.toText ++ " (sys_id: " ++ sid.toText ++ ")"]
  else if name == "create_sla_definition" then do
    let data := Value.obj
      [("name", argGet args "name"),
       ("collection", argGet args "table"),
       ("duration", Value.str ("PT" ++ (argGet args "duration_seconds").toText ++ "S")),
       ("start_condition", argGet args "start_condition"),
       ("stop_condition", argGet args "stop_condition"),
       ("pause_condition", argGet args "pause_condition")]
    let result ← createRecordM "contract_sla" data
    let n ← liftE (result.pyGet "name")
    let sid ← liftE (result.pyGet "sys_id")
    pure ["SLA Definition created: " ++ n.toText ++ " (sys_id: " ++ sid.toText ++ ")"]
  else if name == "create_record_producer" then do
    let producerData := Value.obj
      [("name", argGet args "name"),
       ("table_name", argGet args "table_name"),
       ("short_description", argGet args "short_description"),
       ("category", argGet args "category_sys_id"),
       ("script", argGet args "script")]
    let producer ← createRecordM "sc_cat_item_producer" producerData
    let producerId ← liftE (producer.pyGet "sys_id")
    let vars ← liftE ((argGetD args "variables" (Value.arr [])).pyIter)
    let createdVars ← producerVarsLoop producerId vars
    let pname ← liftE (producer.pyGet "name")
    let joined ← liftE (pyJoin ", " createdVars)
    pure ["Record Producer created: " ++ pname.toText ++ " (sys_id: " ++
      producerId.toText ++ ") with variables: " ++ joined]
  else if name == "create_variable_set" then do
    let setData := Value.obj
      [("name", argGet args "name"), ("description", argGet args "description")]
    let vset ← createRecordM "item_option_new_set" setData
    let setId ← liftE (vset.pyGet "sys_id")
    let vars ← liftE ((argGetD args "variables" (Value.arr [])).pyIter)
    variableSetLoop setId vars
    let sname ← liftE (vset.pyGet "name")
    pure ["Variable Set created: " ++ sname.toText ++ " (sys_id: " ++ setId.toText ++ ")"]
  else if name == "get_incident" then do
    let number := argGet args "number"
    let sysId := argGet args "sys_id"
    if sysId.truthy then do
      let result ← getRecordM "incident" sysId
      pure (incidentDetails number sysId result)
    else do
      let query := "number=" ++ number.toText
      let results ← listRecordsM "incident"
        [("sysparm_query", Value.str query), ("sysparm_limit", Value.num 1)]
      match results with
      | [] => pure ["Incident " ++ number.toText ++ " not found."]
      | r :: _ => pure (incidentDetails number sysId r)
  else if name == "update_incident" then do
    let number := argGet args "number"
    let query := "number=" ++ number.toText
    let results ← listRecordsM "incident"
      [("sysparm_query", Value.str query), ("sysparm_limit", Value.num 1)]
    match results with
    | [] => pure ["Incident " ++ number.toText ++ " not found."]
    | r :: _ => do
        let sysId ← liftE (r.pyGet "sys_id")
        let updateData := Value.obj (args.filter (fun p => !(p.1 == "number")))
        let _ ← updateRecordM "incident" sysId updateData
        pure ["Incident " ++ number.toText ++ " updated successfully."]
  else if name == "list_incidents" then do
    let limit := argGetD args "limit" (Value.num 10)
    let priority := argGet args "priority"
    let state := argGet args "state"
    let queryParts :=
      (if priority.truthy then ["priority=" ++ priority.toText] else []) ++
      (if state.truthy then ["state=" ++ state.toText] else [])
    let query :=
      if queryParts.isEmpty then "ORDERBYDESCsys_created_on"
      else pyJoinStr "^" queryParts
    let results ← listRecordsM "incident"
      [("sysparm_query", Value.str query), ("sysparm_limit", limit)]
    let lines ← liftE (incidentLines results)
    pure [pyJoinStr "\n"
      (("Found " ++ toString results.length ++ " recent incidents:") :: lines)]
  else if name == "smart_incident" then do
    let cfg ← modelIsConfigured
    if !cfg then
      pure ["Gemini AI is not configured. Please set GEMINI_API_KEY."]
    else do
      let prompt := smartIncidentPrompt (argGet args "unstructured_text")
      let raw ← genContentM prompt
      tryCatchM
        (do
          let text := extractJsonText raw
          let structuredData ← jsonLoadsM text
          let result ← createRecordM "incident" structuredData
          let n ← liftE (result.pyGet "number")
          pure ["Smart Incident created: " ++ n.toText ++
            "\nExtracted Data: " ++ jsonDumps2 structuredData])
        (fun e =>
          pure ["Failed to parse AI response: " ++ e ++ "\nRaw Response: " ++ raw])
  else if name == "smart_kb_generator" then do
    let cfg ← modelIsConfigured
    if !cfg then
      pure ["Gemini AI is not configured. Please set GEMINI_API_KEY."]
    else do
      let prompt := smartKbPrompt
        (argGetD args "target_audience" (Value.str "General Users"))
        (argGet args "source_content")
      let resp ← genContentM prompt
      let kbBody := pyStrip resp
      let titlePrompt :=
        "Generate a short, concise title (max 60 chars) for this KB article content: " ++
        kbBody.take 500
      let titleResp ← genContentM titlePrompt
      let title := (pyStrip titleResp).replace "\"" ""
      let data := Value.obj
        [("short_description", Value.str title),
         ("text", Value.str kbBody),
         ("workflow_state", Value.str "draft")]
      let result ← createRecordM "kb_knowledge" data
      let n ← liftE (result.pyGet "number")
      pure ["Smart KB Article created as Draft: " ++ n.toText ++ "\nTitle: " ++ title]
  else
    raiseM ("Unknown tool: " ++ name)

/-- The full `handle_call_tool` (src/main.py lines 10-230): the body
under the single top-level `except Exception` boundary, which logs the
error and renders it as the text result; the returned pair is the trace
of interactions and the list of text contents the host receives. -/
def handleCallTool (env : Env) (name : String) (args : Args) : List Effect × List String :=
  match runBody name args env [] with
  | (tr, Except.ok texts) => (tr, texts)
  | (tr, Except.error e) =>
      (tr ++ [Effect.logError ("Error executing tool " ++ name ++ ": " ++ e)],
       ["Error: " ++ e])

/-- The effects the operation body issued to its collaborators during an
invocation (the trace before the boundary appends any log entry). -/
def sentEffects (env : Env) (name : String) (args : Args) : List Effect :=
  (runBody name args env []).1

/-- The parent payload of `create_record_producer` (src/main.py lines 68-74). -/
def producerParentData (args : Args) : Value :=
  Value.obj
    [("name", argGet args "name"),
     ("table_name", argGet args "table_name"),
     ("short_description", argGet args "short_description"),
     ("category", argGet args "category_sys_id"),
     ("script", argGet args "script")]

/-- The parent payload of `create_variable_set` (src/main.py lines 93-96). -/
def variableSetParentData (args : Args) : Value :=
  Value.obj [("name", argGet args "name"), ("description", argGet args "description")]

/-- The child payload built by the `create_record_producer` variables
loop (src/main.py lines 80-86) for a dict variable entry `kvs`, given
the parent identifier `pid`. -/
def prodChildData (pid : Value) (kvs : Args) : Value :=
  Value.obj
    [("cat_item", pid),
     ("name", argGet kvs "name"),
     ("question_text", argGet kvs "label"),
     ("type", if (argGet kvs "type").eqStr "string" then Value.num 6
              else if (argGet kvs "type").eqStr "choice" then Value.num 1
              else Value.num 2),
     ("mandatory", argGetD kvs "mandatory" (Value.bool false))]

/-- The child payload built by the `create_variable_set` variables loop
(src/main.py lines 101-106): no `type` field at all. -/
def setChildData (sid : Value) (kvs : Args) : Value :=
  Value.obj
    [("variable_set", sid),
     ("name", argGet kvs "name"),
     ("question_text", argGet kvs "label"),
     ("mandatory", argGetD kvs "mandatory" (Value.bool false))]

/-- The `type` codes carried by the `item_option_new` creation calls of
a trace, in trace order. -/
def childTypeCodes (tr : List Effect) : List Value :=
  tr.filterMap (fun e =>
    match e with
    | Effect.createRecord "item_option_new" (Value.obj kvs) => some (argGet kvs "type")
    | _ => none)

/-- The tool names of the dispatch chain (src/main.py lines 14-224). -/
def toolNames : List String :=
  ["create_incident", "create_kb_article", "create_client_script",
   "create_business_rule", "create_sla_definition", "create_record_producer",
   "create_variable_set", "get_incident", "update_incident", "list_incidents",
   "smart_incident", "smart_kb_generator"]

/-- An environment whose list calls find nothing and whose other remote
calls succeed with an empty record; the model is unconfigured. -/
def envListEmptyW : Env :=
  ⟨fun _ _ => Except.ok (Value.obj []),
   fun _ _ => Except.ok (Value.obj []),
   fun _ _ _ => Except.ok (Value.obj []),
   fun _ _ => Except.ok [],
   false,
   fun _ => Except.ok "",
   fun _ => Except.error "Expecting value: line 1 column 1 (char 0)"⟩

/-- An environment whose incident list call resolves to one record. -/
def envListOneW : Env :=
  ⟨fun _ _ => Except.ok (Value.obj []),
   fun _ _ => Except.ok (Value.obj []),
   fun _ _ _ => Except.ok (Value.obj []),
   fun _ _ => Except.ok [Value.obj [("sys_id", Value.str "SYS1")]],
   false,
   fun _ => Except.ok "",
   fun _ => Except.error "Expecting value: line 1 column 1 (char 0)"⟩

/-- An environment for the catalog-item tools: each table answers its
creation with a fixed record, children always named `NV`. -/
def envProducerW : Env :=
  ⟨fun t _ =>
      if t == "sc_cat_item_producer" then
        Except.ok (Value.obj [("sys_id", Value.str "PID1"), ("name", Value.str "RP1")])
      else if t == "item_option_new_set" then
        Except.ok (Value.obj [("sys_id", Value.str "SID1"), ("name", Value.str "VS1")])
      else Except.ok (Value.obj [("name", Value.str "NV")]),
   fun _ _ => Except.ok (Value.obj []),
   fun _ _ _ => Except.ok (Value.obj []),
   fun _ _ => Except.ok [],
   false,
   fun _ => Except.ok "",
   fun _ => Except.error "Expecting value: line 1 column 1 (char 0)"⟩

/-- A record-producer invocation with variables of types choice,
integer and string, in that order. -/
def argsProducer3 : Args :=
  [("name", Value.str "RP1"), ("table_name", Value.str "incident"),
   ("variables", Value.arr
     [Value.obj [("name", Value.str "v1"), ("label", Value.str "L1"),
                 ("type", Value.str "choice")],
      Value.obj [("name", Value.str "v2"), ("label", Value.str "L2"),
                 ("type", Value.str "integer")],
      Value.obj [("name", Value.str "v3"), ("label", Value.str "L3"),
                 ("type", Value.str "string")]])]

/-- An environment where the created variable-set child is named
`CHILDVAR` by the platform. -/
def envVarSetX : Env :=
  ⟨fun t _ =>
      if t == "item_option_new_set" then
        Except.ok (Value.obj [("sys_id", Value.str "ID7"), ("name", Value.str "S")])
      else Except.ok (Value.obj [("name", Value.str "CHILDVAR")]),
   fun _ _ => Except.ok (Value.obj []),
   fun _ _ _ => Except.ok (Value.obj []),
   fun _ _ => Except.ok [],
   false,
   fun _ => Except.ok "",
   fun _ => Except.error "Expecting value: line 1 column 1 (char 0)"⟩

/-- A variable-set invocation with one variable entry. -/
def argsVarSetX : Args :=
  [("name", Value.str "S"),
   ("variables", Value.arr [Value.obj [("name", Value.str "vn"), ("label", Value.str "L")]])]

/-- An environment where the model answers `oops`, which is not JSON. -/
def envSmartParseX : Env :=
  ⟨fun _ _ => Except.ok (Value.obj []),
   fun _ _ => Except.ok (Value.obj []),
   fun _ _ _ => Except.ok (Value.obj []),
   fun _ _ => Except.ok [],
   true,
   fun _ => Except.ok "oops",
   fun _ => Except.error "Expecting value: line 1 column 1 (char 0)"⟩

/-- A smart-incident invocation. -/
def argsSmart : Args := [("unstructured_text", Value.str "printer broken")]

/-- An environment where the model answers valid fenced JSON, the JSON
parser accepts it, but the incident creation call raises a non-2xx
HTTP error. -/
def envSmartCreateX : Env :=
  ⟨fun _ _ => Except.error "500 Server Error: Internal Server Error for url: https://example.service-now.com/api/now/table/incident",
   fun _ _ => Except.ok (Value.obj []),
   fun _ _ _ => Except.ok (Value.obj []),
   fun _ _ => Except.ok [],
   true,
   fun _ => Except.ok "\x7b\"short_description\": \"X\"\x7d",
   fun _ => Except.ok (Value.obj [("short_description", Value.str "X")])⟩

/-- An environment where the model wraps its JSON answer in a
triple-backtick json fence and the parser then rejects the content. -/
def envFenceW : Env :=
  ⟨fun _ _ => Except.ok (Value.obj []),
   fun _ _ => Except.ok (Value.obj []),
   fun _ _ _ => Except.ok (Value.obj []),
   fun _ _ => Except.ok [],
   true,
   fun _ => Except.ok ("```json\n\x7b\"a\": 1\x7d\n```"),
   fun _ => Except.error "Expecting value: line 1 column 1 (char 0)"⟩

/-- A get/update invocation identified by number only. -/
def argsNum : Args := [("number", Value.str "INC0000001")]

/-- An update invocation carrying the number and one field to change. -/
def argsUpdW : Args := [("number", Value.str "INC0000001"), ("state", Value.str "2")]

/-- A get invocation carrying both identifiers. -/
def argsGetSid : Args := [("number", Value.str "INC1"), ("sys_id", Value.str "SYS9")]

/-- A list invocation with both filters set. -/
def argsPrio : Args := [("priority", Value.str "1"), ("state", Value.str "2")]

/-- A computation that appends nothing to the effect trace (pure steps
and possibly-raising attribute accesses). -/
def Silent {α : Type} (c : M α) : Prop := ∀ env tr, (c env tr).1 = tr

theorem bind_app {α β : Type} (x : M α) (f : α → M β) (env : Env) (tr : List Effect) :
    (x >>= f) env tr =
      match x env tr with
      | (tr1, Except.ok a) => f a env tr1
      | (tr1, Except.error e) => (tr1, Except.error e) := rfl

theorem pure_app {α : Type} (a : α) (env : Env) (tr : List Effect) :
    (pure a : M α) env tr = (tr, Except.ok a) := rfl

theorem liftE_app {α : Type} (r : Except String α) (env : Env) (tr : List Effect) :
    liftE r env tr = (tr, r) := rfl

theorem silent_pure {α : Type} (a : α) : Silent (pure a : M α) := fun _ _ => rfl

theorem silent_liftE {α : Type} (r : Except String α) : Silent (liftE r) := fun _ _ => rfl

theorem silent_bind {α β : Type} {x : M α} {f : α → M β}
    (hx : Silent x) (hf : ∀ a, Silent (f a)) : Silent (x >>= f) := by
  intro env tr
  rw [bind_app]
  rcases hxv : x env tr with ⟨tr1, r⟩
  have htr : tr1 = tr := by have := hx env tr; rw [hxv] at this; exact this
  cases r with
  | ok a => simpa [htr] using hf a env tr
  | error e => simpa using htr

/-- A creation call followed by a silent tail contributes exactly its
own effect to the trace, whether or not it (or the tail) raises. -/
theorem fst_create_seq {β : Type} (t : String) (d : Value) (f : Value → M β)
    (hf : ∀ a, Silent (f a)) (env : Env) (tr : List Effect) :
    ((createRecordM t d >>= f) env tr).1 = tr ++ [Effect.createRecord t d] := by
  simp only [bind_app, createRecordM]
  cases env.createResp t d with
  | ok a => exact hf a env (tr ++ [Effect.createRecord t d])
  | error e => rfl

/-- C2: for every `create_kb_article` invocation the one creation call
sent to the platform carries the argument `article_body` under the key
`text` (with `short_description`, the defaulted `workflow_state` and
`kb_knowledge_base` passed under their own names), and for every
`create_business_rule` invocation the creation call carries the argument
`table` under the key `collection` and the argument `when` under the key
`when_toggle` (with the documented boolean defaults for the action
flags and `active`). -/
theorem spec2_C2_create_field_translation (env : Env) (args : Args) :
    sentEffects env "create_kb_article" args =
      [Effect.createRecord "kb_knowledge" (Value.obj
        [("short_description", argGet args "short_description"),
         ("text", argGet args "article_body"),
         ("workflow_state", argGetD args "workflow_state" (Value.str "draft")),
         ("kb_knowledge_base", argGet args "kb_knowledge_base")])] ∧
    sentEffects env "create_business_rule" args =
      [Effect.createRecord "sys_script" (Value.obj
        [("name", argGet args "name"),
         ("collection", argGet args "table"),
         ("script", argGet args "script"),
         ("when_toggle", argGet args "when"),
         ("action_insert", argGetD args "action_insert" (Value.bool true)),
         ("action_update", argGetD args "action_update" (Value.bool false)),
         ("action_delete", argGetD args "action_delete" (Value.bool false)),
         ("action_query", argGetD args "action_query" (Value.bool false)),
         ("active", argGetD args "active" (Value.bool true))])] := by
  refine ⟨?_, ?_⟩
  · unfold sentEffects runBody
    simp only [String.reduceBEq, Bool.false_eq_true, if_false, if_true, String.reduceEq,
      reduceIte]
    rw [fst_create_seq]
    · rfl
    · intro a
      exact silent_bind (silent_liftE _) (fun _ => silent_bind (silent_liftE _)
        (fun _ => silent_pure _))
  · unfold sentEffects runBody
    simp only [String.reduceBEq, Bool.false_eq_true, if_false, if_true, String.reduceEq,
      reduceIte]
    rw [fst_create_seq]
    · rfl
    · intro a
      exact silent_bind (silent_liftE _) (fun _ => silent_bind (silent_liftE _)
        (fun _ => silent_pure _))

theorem toText_str (s : String) : Value.toText (Value.str s) = s := rfl

theorem fst_get_seq {β : Type} (t : String) (i : Value) (f : Value → M β)
    (hf : ∀ a, Silent (f a)) (env : Env) (tr : List Effect) :
    ((getRecordM t i >>= f) env tr).1 = tr ++ [Effect.getRecord t i] := by
  simp only [bind_app, getRecordM]
  cases env.getResp t i with
  | ok a => exact hf a env (tr ++ [Effect.getRecord t i])
  | error e => rfl

theorem fst_list_seq {β : Type} (t : String) (params : List (String × Value))
    (f : List Value → M β) (hf : ∀ a, Silent (f a)) (env : Env) (tr : List Effect) :
    ((listRecordsM t params >>= f) env tr).1 = tr ++ [Effect.listRecords t params] := by
  simp only [bind_app, listRecordsM]
  cases env.listResp t params with
  | ok a => exact hf a env (tr ++ [Effect.listRecords t params])
  | error e => rfl

/-- C9: when `get_incident` is given a truthy `sys_id`, the identifier
wins: the body performs exactly one GET on that identifier and issues no
business-key list/filter call at all. -/
theorem spec2_C9_get_incident_sys_id_precedence (env : Env) (args : Args)
    (hsid : (argGet args "sys_id").truthy = true) :
    sentEffects env "get_incident" args =
      [Effect.getRecord "incident" (argGet args "sys_id")] ∧
    (sentEffects env "get_incident" args).all (fun e => !e.isListRecords) = true := by
  have key : sentEffects env "get_incident" args =
      [Effect.getRecord "incident" (argGet args "sys_id")] := by
    unfold sentEffects runBody
    simp only [String.reduceBEq, Bool.false_eq_true, if_false, if_true, reduceIte, hsid]
    rw [fst_get_seq]
    · rfl
    · intro a
      exact silent_pure _
  exact ⟨key, by rw [key]; rfl⟩

/-- C4: `get_incident` with a business-key number and a falsy (absent or
empty) `sys_id` issues exactly one list call with query `number=<n>` and
limit 1; when that call returns the empty sequence the invocation ends
normally (no exception propagates out of the body, so nothing reaches
the boundary) with the not-found text naming the number. -/
theorem spec2_C4_get_incident_not_found (env : Env) (args : Args) (n : String)
    (hnum : argGet args "number" = Value.str n)
    (hsid : (argGet args "sys_id").truthy = false)
    (hlist : env.listResp "incident"
        [("sysparm_query", Value.str ("number=" ++ n)), ("sysparm_limit", Value.num 1)] =
      Except.ok []) :
    handleCallTool env "get_incident" args =
      ([Effect.listRecords "incident"
          [("sysparm_query", Value.str ("number=" ++ n)), ("sysparm_limit", Value.num 1)]],
       ["Incident " ++ n ++ " not found."]) ∧
    (runBody "get_incident" args env []).2 =
      Except.ok ["Incident " ++ n ++ " not found."] := by
  have hbody : runBody "get_incident" args env [] =
      ([Effect.listRecords "incident"
          [("sysparm_query", Value.str ("number=" ++ n)), ("sysparm_limit", Value.num 1)]],
       Except.ok ["Incident " ++ n ++ " not found."]) := by
    unfold runBody
    simp only [String.reduceBEq, Bool.false_eq_true, if_false, if_true, reduceIte,
      hsid, hnum, toText_str, bind_app, listRecordsM, List.nil_append]
    rw [hlist]
    rfl
  refine ⟨?_, ?_⟩
  · unfold handleCallTool
    rw [hbody]
  · rw [hbody]

theorem fst_update_seq {β : Type} (t : String) (i d : Value)
    (f : Value → M β) (hf : ∀ a, Silent (f a)) (env : Env) (tr : List Effect) :
    ((updateRecordM t i d >>= f) env tr).1 = tr ++ [Effect.updateRecord t i d] := by
  simp only [bind_app, updateRecordM]
  cases env.updateResp t i d with
  | ok a => exact hf a env (tr ++ [Effect.updateRecord t i d])
  | error e => rfl

/-- C5: `list_incidents` joins the non-empty priority/state equality
clauses with `^` (for priority "1" and state "2" the query sent is
`priority=1^state=2`), falls back to the fixed ordering clause
`ORDERBYDESCsys_created_on` when neither filter is truthy, and always
sends as `sysparm_limit` the caller-supplied limit with default 10. -/
theorem spec2_C5_list_incidents_query (env : Env) (args : Args) :
    (argGet args "priority" = Value.str "1" → argGet args "state" = Value.str "2" →
      sentEffects env "list_incidents" args =
        [Effect.listRecords "incident"
          [("sysparm_query", Value.str "priority=1^state=2"),
           ("sysparm_limit", argGetD args "limit" (Value.num 10))]]) ∧
    ((argGet args "priority").truthy = false → (argGet args "state").truthy = false →
      sentEffects env "list_incidents" args =
        [Effect.listRecords "incident"
          [("sysparm_query", Value.str "ORDERBYDESCsys_created_on"),
           ("sysparm_limit", argGetD args "limit" (Value.num 10))]]) ∧
    (args.find? (fun p => p.1 == "limit") = none →
      argGetD args "limit" (Value.num 10) = Value.num 10) := by
  refine ⟨?_, ?_, ?_⟩
  · intro hp hs
    unfold sentEffects runBody
    simp only [String.reduceBEq, Bool.false_eq_true, if_false, if_true, reduceIte,
      hp, hs, toText_str, Value.truthy]
    rw [fst_list_seq]
    · rfl
    · intro a
      exact silent_bind (silent_liftE _) (fun _ => silent_pure _)
  · intro hp hs
    unfold sentEffects runBody
    simp only [String.reduceBEq, Bool.false_eq_true, if_false, if_true, reduceIte,
      hp, hs, List.append_nil, List.nil_append, List.isEmpty_nil]
    rw [fst_list_seq]
    · rfl
    · intro a
      exact silent_bind (silent_liftE _) (fun _ => silent_pure _)
  · intro hno
    unfold argGetD
    rw [hno]

/-- C8: `update_incident` resolves the number through a single list call
with limit 1, then PATCHes the resolved identifier with exactly the
invocation arguments minus the `number` key, every other pair passed
through unchanged and in order (the last two conjuncts characterise that
filtered payload). -/
theorem spec2_C8_update_incident_payload (env : Env) (args : Args) (n : String)
    (r : Args) (rest : List Value)
    (hnum : argGet args "number" = Value.str n)
    (hlist : env.listResp "incident"
        [("sysparm_query", Value.str ("number=" ++ n)), ("sysparm_limit", Value.num 1)] =
      Except.ok (Value.obj r :: rest)) :
    sentEffects env "update_incident" args =
      [Effect.listRecords "incident"
         [("sysparm_query", Value.str ("number=" ++ n)), ("sysparm_limit", Value.num 1)],
       Effect.updateRecord "incident" (argGetD r "sys_id" Value.null)
         (Value.obj (args.filter (fun p => !(p.1 == "number"))))] ∧
    (args.filter (fun p => !(p.1 == "number"))).all (fun p => !(p.1 == "number")) = true ∧
    (∀ p : String × Value,
      p ∈ args.filter (fun p => !(p.1 == "number")) ↔ (p ∈ args ∧ p.1 ≠ "number")) := by
  refine ⟨?_, ?_, ?_⟩
  · unfold sentEffects runBody
    cases hU : env.updateResp "incident" (argGetD r "sys_id" Value.null)
        (Value.obj (args.filter (fun p => !(p.1 == "number")))) <;>
      simp only [String.reduceBEq, Bool.false_eq_true, if_false, if_true, reduceIte,
        hnum, toText_str, bind_app, liftE_app, pure_app, listRecordsM, updateRecordM,
        Value.pyGet, Value.pyGetD, List.nil_append, List.singleton_append, hlist, hU]
  · simp [List.all_eq_true]
  · intro p
    simp [List.mem_filter]

theorem pyJoin_strs (sep : String) : ∀ l : List String,
    pyJoin sep (l.map Value.str) = Except.ok (pyJoinStr sep l) := by
  intro l
  induction l with
  | nil => rfl
  | cons a t ih =>
    cases t with
    | nil => rfl
    | cons b t2 =>
      simp only [List.map_cons] at ih ⊢
      rw [pyJoin, ih]
      rfl

theorem producerVarsLoop_run (env : Env) (pid : Value) (nameF : Value → String)
    (hc : ∀ d, env.createResp "item_option_new" d =
      Except.ok (Value.obj [("name", Value.str (nameF d))])) :
    ∀ (rawVars : List Args) (tr : List Effect),
      producerVarsLoop pid (rawVars.map Value.obj) env tr =
        (tr ++ rawVars.map (fun kvs =>
           Effect.createRecord "item_option_new" (prodChildData pid kvs)),
         Except.ok ((rawVars.map (fun kvs => nameF (prodChildData pid kvs))).map Value.str)) := by
  intro rawVars
  induction rawVars with
  | nil => intro tr; simp [producerVarsLoop, pure_app]
  | cons kvs rest ih =>
    intro tr
    simp only [List.map_cons, producerVarsLoop, bind_app, liftE_app, pure_app,
      Value.pyGet, Value.pyGetD, createRecordM, prodChildData, argGet, hc, ih,
      argGetD, List.find?, String.reduceBEq, List.append_assoc,
      List.singleton_append, List.cons_append, List.nil_append]

theorem variableSetLoop_run (env : Env) (sid : Value)
    (hc : ∀ d, ∃ v, env.createResp "item_option_new" d = Except.ok v) :
    ∀ (rawVars : List Args) (tr : List Effect),
      variableSetLoop sid (rawVars.map Value.obj) env tr =
        (tr ++ rawVars.map (fun kvs =>
           Effect.createRecord "item_option_new" (setChildData sid kvs)),
         Except.ok ()) := by
  intro rawVars
  induction rawVars with
  | nil => intro tr; simp [variableSetLoop, pure_app]
  | cons kvs rest ih =>
    intro tr
    obtain ⟨v, hv⟩ := hc (setChildData sid kvs)
    simp only [setChildData, argGet, argGetD] at hv
    simp only [List.map_cons, variableSetLoop, bind_app, liftE_app, pure_app,
      Value.pyGet, Value.pyGetD, createRecordM, setChildData, argGet, hv, ih,
      argGetD, List.find?, String.reduceBEq, List.append_assoc,
      List.singleton_append, List.cons_append, List.nil_append]

/-- C3 (amended): both tools create one parent record and then one
`item_option_new` child per entry of `variables`, in input order, each
child referencing the parent identifier; `create_record_producer`
aggregates the names of the created child variables into its success
message, while the `create_variable_set` success message carries only
the set name and identifier and no child variable name. -/
theorem spec2_C3_parent_child_creation (env : Env) (args : Args)
    (pr sr : Args) (rawVars : List Args) (nameF : Value → String)
    (hpp : env.createResp "sc_cat_item_producer" (producerParentData args) =
      Except.ok (Value.obj pr))
    (hps : env.createResp "item_option_new_set" (variableSetParentData args) =
      Except.ok (Value.obj sr))
    (hc : ∀ d, env.createResp "item_option_new" d =
      Except.ok (Value.obj [("name", Value.str (nameF d))]))
    (hv : argGetD args "variables" (Value.arr []) = Value.arr (rawVars.map Value.obj)) :
    handleCallTool env "create_record_producer" args =
      (Effect.createRecord "sc_cat_item_producer" (producerParentData args) ::
         rawVars.map (fun kvs => Effect.createRecord "item_option_new"
           (prodChildData (argGetD pr "sys_id" Value.null) kvs)),
       ["Record Producer created: " ++ (argGetD pr "name" Value.null).toText ++
        " (sys_id: " ++ (argGetD pr "sys_id" Value.null).toText ++ ") with variables: " ++
        pyJoinStr ", " (rawVars.map (fun kvs =>
          nameF (prodChildData (argGetD pr "sys_id" Value.null) kvs)))]) ∧
    handleCallTool env "create_variable_set" args =
      (Effect.createRecord "item_option_new_set" (variableSetParentData args) ::
         rawVars.map (fun kvs => Effect.createRecord "item_option_new"
           (setChildData (argGetD sr "sys_id" Value.null) kvs)),
       ["Variable Set created: " ++ (argGetD sr "name" Value.null).toText ++
        " (sys_id: " ++ (argGetD sr "sys_id" Value.null).toText ++ ")"]) := by
  simp only [producerParentData] at hpp
  simp only [variableSetParentData] at hps
  have hc2 : ∀ d, ∃ v, env.createResp "item_option_new" d = Except.ok v :=
    fun d => ⟨_, hc d⟩
  refine ⟨?_, ?_⟩
  · have key : runBody "create_record_producer" args env [] =
        (Effect.createRecord "sc_cat_item_producer" (producerParentData args) ::
           rawVars.map (fun kvs => Effect.createRecord "item_option_new"
             (prodChildData (argGetD pr "sys_id" Value.null) kvs)),
         Except.ok
           ["Record Producer created: " ++ (argGetD pr "name" Value.null).toText ++
            " (sys_id: " ++ (argGetD pr "sys_id" Value.null).toText ++
            ") with variables: " ++
            pyJoinStr ", " (rawVars.map (fun kvs =>
              nameF (prodChildData (argGetD pr "sys_id" Value.null) kvs)))]) := by
      unfold runBody
      simp only [String.reduceBEq, Bool.false_eq_true, if_false, if_true, reduceIte,
        bind_app, liftE_app, pure_app, createRecordM, hpp, Value.pyGet, Value.pyGetD,
        hv, Value.pyIter, producerVarsLoop_run env _ nameF hc, pyJoin_strs,
        producerParentData, List.nil_append, List.singleton_append]
    unfold handleCallTool
    rw [key]
  · have key : runBody "create_variable_set" args env [] =
        (Effect.createRecord "item_option_new_set" (variableSetParentData args) ::
           rawVars.map (fun kvs => Effect.createRecord "item_option_new"
             (setChildData (argGetD sr "sys_id" Value.null) kvs)),
         Except.ok
           ["Variable Set created: " ++ (argGetD sr "name" Value.null).toText ++
            " (sys_id: " ++ (argGetD sr "sys_id" Value.null).toText ++ ")"]) := by
      unfold runBody
      simp only [String.reduceBEq, Bool.false_eq_true, if_false, if_true, reduceIte,
        bind_app, liftE_app, pure_app, createRecordM, hps, Value.pyGet, Value.pyGetD,
        hv, Value.pyIter, variableSetLoop_run env _ hc2,
        variableSetParentData, List.nil_append, List.singleton_append]
    unfold handleCallTool
    rw [key]

theorem childTypeCodes_prodChildren (pid : Value) (rawVars : List Args) :
    childTypeCodes (rawVars.map (fun kvs =>
      Effect.createRecord "item_option_new" (prodChildData pid kvs))) =
    rawVars.map (fun kvs =>
      if (argGet kvs "type").eqStr "string" then Value.num 6
      else if (argGet kvs "type").eqStr "choice" then Value.num 1
      else Value.num 2) := by
  induction rawVars with
  | nil => rfl
  | cons kvs rest ih =>
    simp only [childTypeCodes] at ih ⊢
    simp only [List.map_cons, List.filterMap_cons, prodChildData, argGet, argGetD,
      List.find?, String.reduceBEq, String.reduceEq] at ih ⊢
    rw [ih]

/-- C7: the variables of `create_record_producer` are forwarded as child
creation calls in input order, each carrying the platform type code
given by the fixed lookup string to 6, choice to 1, anything else to 2;
in particular the input types choice, integer, string produce the child
type codes 1, 2, 6 in that order. -/
theorem spec2_C7_variable_type_lookup (env : Env) (args : Args)
    (pr : Args) (rawVars : List Args) (nameF : Value → String)
    (hpp : env.createResp "sc_cat_item_producer" (producerParentData args) =
      Except.ok (Value.obj pr))
    (hc : ∀ d, env.createResp "item_option_new" d =
      Except.ok (Value.obj [("name", Value.str (nameF d))]))
    (hv : argGetD args "variables" (Value.arr []) = Value.arr (rawVars.map Value.obj)) :
    sentEffects env "create_record_producer" args =
      Effect.createRecord "sc_cat_item_producer" (producerParentData args) ::
        rawVars.map (fun kvs => Effect.createRecord "item_option_new" (Value.obj
          [("cat_item", argGetD pr "sys_id" Value.null),
           ("name", argGet kvs "name"),
           ("question_text", argGet kvs "label"),
           ("type", if (argGet kvs "type").eqStr "string" then Value.num 6
                    else if (argGet kvs "type").eqStr "choice" then Value.num 1
                    else Value.num 2),
           ("mandatory", argGetD kvs "mandatory" (Value.bool false))])) ∧
    childTypeCodes (sentEffects env "create_record_producer" args) =
      rawVars.map (fun kvs =>
        if (argGet kvs "type").eqStr "string" then Value.num 6
        else if (argGet kvs "type").eqStr "choice" then Value.num 1
        else Value.num 2) ∧
    childTypeCodes (sentEffects envProducerW "create_record_producer" argsProducer3) =
      [Value.num 1, Value.num 2, Value.num 6] := by
  simp only [producerParentData] at hpp
  have key : sentEffects env "create_record_producer" args =
      Effect.createRecord "sc_cat_item_producer" (producerParentData args) ::
        rawVars.map (fun kvs => Effect.createRecord "item_option_new"
          (prodChildData (argGetD pr "sys_id" Value.null) kvs)) := by
    unfold sentEffects runBody
    simp only [String.reduceBEq, Bool.false_eq_true, if_false, if_true, reduceIte,
      bind_app, liftE_app, pure_app, createRecordM, hpp, Value.pyGet, Value.pyGetD,
      hv, Value.pyIter, producerVarsLoop_run env _ nameF hc, pyJoin_strs,
      producerParentData, List.nil_append, List.singleton_append]
  refine ⟨?_, ?_, ?_⟩
  · rw [key]
    simp only [prodChildData]
  · have hskip : ∀ tr : List Effect,
        childTypeCodes
          (Effect.createRecord "sc_cat_item_producer" (producerParentData args) :: tr) =
        childTypeCodes tr := by
      intro tr
      simp only [childTypeCodes, List.filterMap_cons, producerParentData]
      rfl
    rw [key, hskip, childTypeCodes_prodChildren]
  · rfl

/-- C3 counterexample: a `create_variable_set` run in which the platform
names the created child variable `CHILDVAR`, yet the final success
message carries only the set name and identifier — the child variable
names are not aggregated into it, contrary to the claim that both tools
do so. -/
theorem spec2_C3_counterexample :
    handleCallTool envVarSetX "create_variable_set" argsVarSetX =
      ([Effect.createRecord "item_option_new_set"
          (Value.obj [("name", Value.str "S"), ("description", Value.null)]),
        Effect.createRecord "item_option_new"
          (Value.obj [("variable_set", Value.str "ID7"), ("name", Value.str "vn"),
                      ("question_text", Value.str "L"), ("mandatory", Value.bool false)])],
       ["Variable Set created: S (sys_id: ID7)"]) ∧
    pyIn "CHILDVAR" "Variable Set created: S (sys_id: ID7)" = false := by
  exact ⟨rfl, rfl⟩

/-- C1 (amended): the top-level boundary of `handle_call_tool` catches
every exception that propagates out of the operation body, logs it once
and renders it as the `Error:` text (in particular for an unknown tool
name); but inside `smart_incident` an exception raised while parsing the
model output is caught once at the inner boundary instead and rendered,
without logging, as the `Failed to parse AI response` text; in all cases
the host receives a plain text result. -/
theorem spec2_C1_boundary (env : Env) (name : String) (args : Args) :
    (∀ tr texts, runBody name args env [] = (tr, Except.ok texts) →
      handleCallTool env name args = (tr, texts)) ∧
    (∀ tr e, runBody name args env [] = (tr, Except.error e) →
      handleCallTool env name args =
        (tr ++ [Effect.logError ("Error executing tool " ++ name ++ ": " ++ e)],
         ["Error: " ++ e])) ∧
    (name ∉ toolNames →
      handleCallTool env name args =
        ([Effect.logError ("Error executing tool " ++ name ++ ": " ++ ("Unknown tool: " ++ name))],
         ["Error: " ++ ("Unknown tool: " ++ name)])) ∧
    (∀ raw e, env.modelConfigured = true →
      env.genResp (smartIncidentPrompt (argGet args "unstructured_text")) = Except.ok raw →
      env.jsonLoadsFn (extractJsonText raw) = Except.error e →
      runBody "smart_incident" args env [] =
        ([Effect.genContent (smartIncidentPrompt (argGet args "unstructured_text")),
          Effect.jsonLoads (extractJsonText raw)],
         Except.ok ["Failed to parse AI response: " ++ e ++ "\nRaw Response: " ++ raw])) := by
  refine ⟨?_, ?_, ?_, ?_⟩
  · intro tr texts h
    unfold handleCallTool
    rw [h]
  · intro tr e h
    unfold handleCallTool
    rw [h]
  · intro hn
    simp only [toolNames, List.mem_cons, List.not_mem_nil, or_false, not_or] at hn
    obtain ⟨h1, h2, h3, h4, h5, h6, h7, h8, h9, h10, h11, h12⟩ := hn
    have key : runBody name args env [] =
        ([], Except.error ("Unknown tool: " ++ name)) := by
      unfold runBody
      simp only [beq_eq_false_iff_ne.mpr h1, beq_eq_false_iff_ne.mpr h2,
        beq_eq_false_iff_ne.mpr h3, beq_eq_false_iff_ne.mpr h4,
        beq_eq_false_iff_ne.mpr h5, beq_eq_false_iff_ne.mpr h6,
        beq_eq_false_iff_ne.mpr h7, beq_eq_false_iff_ne.mpr h8,
        beq_eq_false_iff_ne.mpr h9, beq_eq_false_iff_ne.mpr h10,
        beq_eq_false_iff_ne.mpr h11, beq_eq_false_iff_ne.mpr h12,
        Bool.false_eq_true, if_false, raiseM]
    unfold handleCallTool
    rw [key]
    rfl
  · intro raw e hm hg hj
    unfold runBody
    simp only [String.reduceBEq, Bool.false_eq_true, if_false, if_true, reduceIte,
      bind_app, liftE_app, pure_app, modelIsConfigured, hm, Bool.not_true,
      genContentM, hg, tryCatchM, jsonLoadsM, hj, createRecordM,
      List.nil_append, List.singleton_append]

/-- C1 counterexample: a JSON-parse exception inside `smart_incident`
(model answer `oops`) is not handled as the claim states: nothing is
logged, the result is produced by the inner boundary under the
`Failed to parse AI response` label, and the returned text neither is
the top-level `Error:` rendering nor begins with the error message. -/
theorem spec2_C1_counterexample :
    handleCallTool envSmartParseX "smart_incident" argsSmart =
      ([Effect.genContent (smartIncidentPrompt (Value.str "printer broken")),
        Effect.jsonLoads "oops"],
       ["Failed to parse AI response: Expecting value: line 1 column 1 (char 0)\nRaw Response: oops"]) ∧
    (handleCallTool envSmartParseX "smart_incident" argsSmart).1.all
      (fun e => !e.isLogError) = true ∧
    "Error: ".data.isPrefixOf
      (((handleCallTool envSmartParseX "smart_incident" argsSmart).2.headD "").data) = false ∧
    "Expecting value".data.isPrefixOf
      (((handleCallTool envSmartParseX "smart_incident" argsSmart).2.headD "").data) = false := by
  exact ⟨rfl, rfl, rfl, rfl⟩

/-- C10: when the model output parses as JSON but the subsequent create
call raises, the inner `except` of `smart_incident` catches it: the body
returns normally (nothing reaches the top-level boundary, nothing is
logged) and the host text is the `Failed to parse AI response` message
carrying that error and the raw model output. -/
theorem spec2_C10_create_error_under_parse_label (env : Env) (args : Args)
    (raw : String) (d : Value) (e : String)
    (hm : env.modelConfigured = true)
    (hg : env.genResp (smartIncidentPrompt (argGet args "unstructured_text")) = Except.ok raw)
    (hj : env.jsonLoadsFn (extractJsonText raw) = Except.ok d)
    (hcr : env.createResp "incident" d = Except.error e) :
    runBody "smart_incident" args env [] =
      ([Effect.genContent (smartIncidentPrompt (argGet args "unstructured_text")),
        Effect.jsonLoads (extractJsonText raw),
        Effect.createRecord "incident" d],
       Except.ok ["Failed to parse AI response: " ++ e ++ "\nRaw Response: " ++ raw]) ∧
    handleCallTool env "smart_incident" args =
      ([Effect.genContent (smartIncidentPrompt (argGet args "unstructured_text")),
        Effect.jsonLoads (extractJsonText raw),
        Effect.createRecord "incident" d],
       ["Failed to parse AI response: " ++ e ++ "\nRaw Response: " ++ raw]) ∧
    (handleCallTool env "smart_incident" args).1.all (fun x => !x.isLogError) = true := by
  have key : runBody "smart_incident" args env [] =
      ([Effect.genContent (smartIncidentPrompt (argGet args "unstructured_text")),
        Effect.jsonLoads (extractJsonText raw),
        Effect.createRecord "incident" d],
       Except.ok ["Failed to parse AI response: " ++ e ++ "\nRaw Response: " ++ raw]) := by
    unfold runBody
    simp only [String.reduceBEq, Bool.false_eq_true, if_false, if_true, reduceIte,
      bind_app, liftE_app, pure_app, modelIsConfigured, hm, Bool.not_true,
      genContentM, hg, tryCatchM, jsonLoadsM, hj, createRecordM, hcr,
      List.nil_append, List.singleton_append, List.cons_append, List.append_assoc]
  have hh : handleCallTool env "smart_incident" args =
      ([Effect.genContent (smartIncidentPrompt (argGet args "unstructured_text")),
        Effect.jsonLoads (extractJsonText raw),
        Effect.createRecord "incident" d],
       ["Failed to parse AI response: " ++ e ++ "\nRaw Response: " ++ raw]) := by
    unfold handleCallTool
    rw [key]
  exact ⟨key, hh, by rw [hh]; rfl⟩

theorem isPrefixOf_cons₂ (a b : Char) (as bs : List Char) :
    (a :: as).isPrefixOf (b :: bs) = (a == b && as.isPrefixOf bs) := rfl

theorem isPrefixOf_self_app (s k : List Char) : s.isPrefixOf (s ++ k) = true := by
  simp [List.isPrefixOf_iff_prefix]

theorem subInAux_self_app (s k : List Char) : subInAux s (s ++ k) = true := by
  cases s with
  | nil =>
    cases k with
    | nil => rfl
    | cons c r => simp [subInAux, List.isPrefixOf]
  | cons c st =>
    simp [subInAux, isPrefixOf_self_app]

theorem splitSepAux_fuel (sep : List Char) : ∀ (n : Nat) (l acc : List Char)
    (fuel1 fuel2 : Nat), l.length ≤ n → l.length ≤ fuel1 → l.length ≤ fuel2 →
    splitSepAux sep fuel1 l acc = splitSepAux sep fuel2 l acc := by
  intro n
  induction n with
  | zero =>
    intro l acc fuel1 fuel2 hn h1 h2
    have : l = [] := List.eq_nil_of_length_eq_zero (Nat.le_zero.mp hn)
    subst this
    cases fuel1 <;> cases fuel2 <;> rfl
  | succ n ih =>
    intro l acc fuel1 fuel2 hn h1 h2
    cases l with
    | nil => cases fuel1 <;> cases fuel2 <;> rfl
    | cons c rest =>
      simp only [List.length_cons] at hn h1 h2
      cases fuel1 with
      | zero => omega
      | succ f1 =>
        cases fuel2 with
        | zero => omega
        | succ f2 =>
          simp only [splitSepAux]
          by_cases hp : sep.isPrefixOf (c :: rest)
          · simp only [hp, if_true]
            have hlen : (List.drop (sep.length - 1) rest).length ≤ n := by
              simp only [List.length_drop]
              omega
            rw [ih (List.drop (sep.length - 1) rest) [] f1 f2 hlen
              (by simp only [List.length_drop]; omega)
              (by simp only [List.length_drop]; omega)]
          · simp only [hp, if_false]
            exact ih rest (c :: acc) f1 f2 (by omega) (by omega) (by omega)

theorem splitSepAux_head_match (sT k : List Char) (fuel : Nat) (acc : List Char) :
    splitSepAux ('`' :: sT) (fuel + 1) (('`' :: sT) ++ k) acc =
      acc.reverse :: splitSepAux ('`' :: sT) fuel k [] := by
  have hp : ('`' :: sT).isPrefixOf (('`' :: sT) ++ k) = true := isPrefixOf_self_app _ _
  simp only [List.cons_append] at hp
  simp only [List.cons_append, splitSepAux, List.append_eq, hp, if_true,
    List.length_cons, Nat.add_sub_cancel, List.drop_left]

theorem splitSepAux_clean (sT : List Char) : ∀ (m : List Char) (fuel : Nat)
    (acc : List Char), (∀ c ∈ m, c ≠ '`') → m.length ≤ fuel →
    splitSepAux ('`' :: sT) fuel m acc = [acc.reverse ++ m] := by
  intro m
  induction m with
  | nil =>
    intro fuel acc hm hf
    cases fuel <;> simp [splitSepAux]
  | cons c rest ih =>
    intro fuel acc hm hf
    simp only [List.length_cons] at hf
    cases fuel with
    | zero => omega
    | succ f =>
      have hc : ('`' == c) = false :=
        beq_eq_false_iff_ne.mpr (fun h => (hm c (by simp)) h.symm)
      simp only [splitSepAux, isPrefixOf_cons₂, hc, Bool.false_and,
        Bool.false_eq_true, if_false]
      rw [ih f (c :: acc) (fun x hx => hm x (by simp [hx])) (by omega)]
      simp

theorem splitSepAux_skip_match (sT : List Char) : ∀ (m k : List Char)
    (fuel : Nat) (acc : List Char), (∀ c ∈ m, c ≠ '`') →
    m.length + sT.length + 1 + k.length ≤ fuel →
    splitSepAux ('`' :: sT) fuel (m ++ ('`' :: sT) ++ k) acc =
      (acc.reverse ++ m) :: splitSepAux ('`' :: sT) k.length k [] := by
  intro m
  induction m with
  | nil =>
    intro k fuel acc hm hf
    simp only [List.length_nil, Nat.zero_add] at hf
    cases fuel with
    | zero => omega
    | succ f =>
      simp only [List.nil_append]
      rw [splitSepAux_head_match]
      rw [splitSepAux_fuel ('`' :: sT) k.length k [] f k.length (le_refl _)
        (by omega) (le_refl _)]
      simp
  | cons c m' ih =>
    intro k fuel acc hm hf
    simp only [List.length_cons] at hf
    cases fuel with
    | zero => omega
    | succ f =>
      have hc : ('`' == c) = false :=
        beq_eq_false_iff_ne.mpr (fun h => (hm c (by simp)) h.symm)
      simp only [List.cons_append, splitSepAux, isPrefixOf_cons₂, hc, Bool.false_and,
        Bool.false_eq_true, if_false, List.append_eq]
      rw [ih k f (c :: acc) (fun x hx => hm x (by simp [hx])) (by omega)]
      simp

theorem splitSepAux_tail_ticks : ∀ (m : List Char) (fuel : Nat) (acc : List Char),
    (∀ c ∈ m, c ≠ '`') → m.length + 3 ≤ fuel →
    splitSepAux "```json".data fuel (m ++ ['`', '`', '`']) acc =
      [acc.reverse ++ (m ++ ['`', '`', '`'])] := by
  intro m
  induction m with
  | nil =>
    intro fuel acc hm hf
    obtain ⟨f3, rfl⟩ : ∃ f3, fuel = f3 + 3 := ⟨fuel - 3, by omega⟩
    have hx3 : "```json".data.isPrefixOf ['`', '`', '`'] = false := by decide
    have hx2 : "```json".data.isPrefixOf ['`', '`'] = false := by decide
    have hx1 : "```json".data.isPrefixOf ['`'] = false := by decide
    simp only [List.nil_append, splitSepAux, hx3, hx2, hx1, Bool.false_eq_true,
      if_false, List.reverse_cons, List.append_assoc, List.reverse_nil,
      List.nil_append]
    rfl
  | cons c m' ih =>
    intro fuel acc hm hf
    simp only [List.length_cons] at hf
    cases fuel with
    | zero => omega
    | succ f =>
      have hc : ('`' == c) = false :=
        beq_eq_false_iff_ne.mpr (fun h => (hm c (by simp)) h.symm)
      have hdata : "```json".data = '`' :: "``json".data := rfl
      simp only [List.cons_append, splitSepAux, hdata, isPrefixOf_cons₂, hc,
        Bool.false_and, Bool.false_eq_true, if_false, List.append_eq]
      rw [← hdata, ih f (c :: acc) (fun x hx => hm x (by simp [hx])) (by omega)]
      simp

theorem dropWhile_keep (c : Char) (l : List Char) (hc : pySpace c = false) :
    List.dropWhile pySpace (c :: l) = c :: l := by
  simp [List.dropWhile_cons, hc]

theorem mk_data (s : String) : String.mk s.data = s := rfl

theorem stripL_tick_ends (m : List Char) :
    stripL ('`' :: (m ++ ['`'])) = '`' :: (m ++ ['`']) := by
  unfold stripL
  rw [dropWhile_keep _ _ (by decide)]
  have h1 : ('`' :: (m ++ ['`'])).reverse = '`' :: (m.reverse ++ ['`']) := by
    simp
  rw [h1, dropWhile_keep _ _ (by decide), ← h1, List.reverse_reverse]

theorem stripL_wrap_nl (m : List Char) :
    stripL ('\n' :: (m ++ ['\n'])) = stripL m := by
  unfold stripL
  rw [List.dropWhile_cons]
  simp only [show pySpace '\n' = true from rfl, if_true]
  rw [List.dropWhile_append]
  cases hh : (List.dropWhile pySpace m).isEmpty with
  | true =>
    simp only [hh, if_true]
    have : List.dropWhile pySpace m = [] := by
      cases hdm : List.dropWhile pySpace m with
      | nil => rfl
      | cons x xs => rw [hdm] at hh; simp at hh
    rw [this]
    rfl
  | false =>
    simp only [hh, Bool.false_eq_true, if_false, List.reverse_append,
      List.reverse_cons, List.reverse_nil, List.nil_append, List.singleton_append,
      List.dropWhile_cons, show pySpace '\n' = true from rfl, if_true]

theorem extract_fenced (b : String) (hb : ∀ c ∈ b.data, c ≠ '`') :
    extractJsonText ("```json\n" ++ b ++ "\n```") = pyStrip b := by
  have hmfree : ∀ c ∈ ('\n' :: b.data ++ ['\n']), c ≠ '`' := by
    intro c hcm
    simp only [List.cons_append, List.mem_cons, List.mem_append,
      List.mem_singleton, List.not_mem_nil, or_false] at hcm
    rcases hcm with h | h | h
    · subst h; decide
    · exact hb c h
    · subst h; decide
  have h1 : "```json\n".data = ['`', '`', '`', 'j', 's', 'o', 'n', '\n'] := rfl
  have h2 : "\n```".data = ['\n', '`', '`', '`'] := rfl
  have h3 : "``json".data = ['`', '`', 'j', 's', 'o', 'n'] := rfl
  have hdata : ("```json\n" ++ b ++ "\n```").data =
      ('`' :: "``json".data) ++ (('\n' :: b.data ++ ['\n']) ++ ['`', '`', '`']) := by
    simp [String.data_append, h1, h2, h3]
  have hdata2 : ("```json\n" ++ b ++ "\n```").data =
      '`' :: (("``json".data ++ ('\n' :: b.data ++ ['\n', '`', '`'])) ++ ['`']) := by
    simp [String.data_append, h1, h2, h3]
  have hstrip : pyStrip ("```json\n" ++ b ++ "\n```") = ("```json\n" ++ b ++ "\n```") := by
    unfold pyStrip
    rw [hdata2, stripL_tick_ends, ← hdata2, mk_data]
  have hin : pyIn "```json" ("```json\n" ++ b ++ "\n```") = true := by
    unfold pyIn
    rw [hdata]
    exact subInAux_self_app _ _
  have hsplit1 : pySplit ("```json\n" ++ b ++ "\n```") "```json" =
      ["", String.mk (('\n' :: b.data ++ ['\n']) ++ ['`', '`', '`'])] := by
    unfold pySplit
    rw [hdata]
    have hshape : ('`' :: "``json".data) ++ (('\n' :: b.data ++ ['\n']) ++ ['`', '`', '`']) =
        ([] ++ ('`' :: "``json".data)) ++ (('\n' :: b.data ++ ['\n']) ++ ['`', '`', '`']) := by
      simp
    rw [hshape]
    rw [splitSepAux_skip_match "``json".data []
      (('\n' :: b.data ++ ['\n']) ++ ['`', '`', '`']) _ [] (by simp)
      (by simp [h3]; omega)]
    rw [splitSepAux_tail_ticks ('\n' :: b.data ++ ['\n'])
      (('\n' :: b.data ++ ['\n']) ++ ['`', '`', '`']).length [] hmfree (by simp)]
    simp
  have hsplit2 : pySplit (String.mk (('\n' :: b.data ++ ['\n']) ++ ['`', '`', '`'])) "```" =
      [String.mk ('\n' :: b.data ++ ['\n']), ""] := by
    unfold pySplit
    have hT : "```".data = '`' :: "``".data := rfl
    have hshape : (String.mk (('\n' :: b.data ++ ['\n']) ++ ['`', '`', '`'])).data =
        (('\n' :: b.data ++ ['\n']) ++ ('`' :: "``".data)) ++ [] := by
      simp [mk_data]
    rw [hshape, hT]
    rw [show (('\n' :: b.data ++ ['\n']) ++ ('`' :: "``".data)) ++ [] =
      ('\n' :: b.data ++ ['\n']) ++ ('`' :: "``".data) ++ [] from by simp]
    rw [splitSepAux_skip_match "``".data ('\n' :: b.data ++ ['\n']) [] _ [] hmfree
      (by simp [hshape])]
    simp [splitSepAux]
  have hstripm : pyStrip (String.mk ('\n' :: b.data ++ ['\n'])) = pyStrip b := by
    unfold pyStrip
    show String.mk (stripL ('\n' :: b.data ++ ['\n'])) = String.mk (stripL b.data)
    rw [show ('\n' :: b.data ++ ['\n']) = '\n' :: (b.data ++ ['\n']) from rfl,
      stripL_wrap_nl]
  unfold extractJsonText
  rw [hstrip]
  simp only [hin, if_true]
  rw [hsplit1]
  rw [show (["", String.mk (('\n' :: b.data ++ ['\n']) ++ ['`', '`', '`'])]).getD 1 "" =
    String.mk (('\n' :: b.data ++ ['\n']) ++ ['`', '`', '`']) from rfl]
  rw [hsplit2]
  rw [show ([String.mk ('\n' :: b.data ++ ['\n']), ""]).getD 0 "" =
    String.mk ('\n' :: b.data ++ ['\n']) from rfl]
  exact hstripm

theorem smart_trace_take2 (env : Env) (args : Args) (raw : String)
    (hm : env.modelConfigured = true)
    (hg : env.genResp (smartIncidentPrompt (argGet args "unstructured_text")) =
      Except.ok raw) :
    (handleCallTool env "smart_incident" args).1.take 2 =
      [Effect.genContent (smartIncidentPrompt (argGet args "unstructured_text")),
       Effect.jsonLoads (extractJsonText raw)] := by
  unfold handleCallTool runBody
  cases hj : env.jsonLoadsFn (extractJsonText raw) with
  | error e =>
    simp only [String.reduceBEq, Bool.false_eq_true, if_false, if_true, reduceIte,
      bind_app, liftE_app, pure_app, modelIsConfigured, hm, Bool.not_true,
      genContentM, hg, tryCatchM, jsonLoadsM, hj, createRecordM,
      List.nil_append, List.singleton_append, List.cons_append]
    rfl
  | ok d =>
    cases hcr : env.createResp "incident" d with
    | error e =>
      simp only [String.reduceBEq, Bool.false_eq_true, if_false, if_true, reduceIte,
        bind_app, liftE_app, pure_app, modelIsConfigured, hm, Bool.not_true,
        genContentM, hg, tryCatchM, jsonLoadsM, hj, createRecordM, hcr,
        List.nil_append, List.singleton_append, List.cons_append]
      rfl
    | ok v =>
      cases hn : v.pyGet "number" with
      | error e2 =>
        simp only [String.reduceBEq, Bool.false_eq_true, if_false, if_true, reduceIte,
          bind_app, liftE_app, pure_app, modelIsConfigured, hm, Bool.not_true,
          genContentM, hg, tryCatchM, jsonLoadsM, hj, createRecordM, hcr, hn,
          List.nil_append, List.singleton_append, List.cons_append]
        rfl
      | ok nv =>
        simp only [String.reduceBEq, Bool.false_eq_true, if_false, if_true, reduceIte,
          bind_app, liftE_app, pure_app, modelIsConfigured, hm, Bool.not_true,
          genContentM, hg, tryCatchM, jsonLoadsM, hj, createRecordM, hcr, hn,
          List.nil_append, List.singleton_append, List.cons_append]
        rfl

/-- C6: `smart_incident` strips the surrounding code-fence markers
before JSON parsing — on a model response wrapped in triple-backtick
json fencing the string handed to the JSON parser is exactly the
stripped fenced content; and for any response whose extracted text the
JSON parser rejects, the result is the error text ending in the raw
model response and no create call is issued against the platform. -/
theorem spec2_C6_fence_extraction (env : Env) (args : Args) :
    (∀ b : String, (∀ c ∈ b.data, c ≠ '`') → env.modelConfigured = true →
      env.genResp (smartIncidentPrompt (argGet args "unstructured_text")) =
        Except.ok ("```json\n" ++ b ++ "\n```") →
      (handleCallTool env "smart_incident" args).1.take 2 =
        [Effect.genContent (smartIncidentPrompt (argGet args "unstructured_text")),
         Effect.jsonLoads (pyStrip b)]) ∧
    (∀ raw e, env.modelConfigured = true →
      env.genResp (smartIncidentPrompt (argGet args "unstructured_text")) =
        Except.ok raw →
      env.jsonLoadsFn (extractJsonText raw) = Except.error e →
      handleCallTool env "smart_incident" args =
        ([Effect.genContent (smartIncidentPrompt (argGet args "unstructured_text")),
          Effect.jsonLoads (extractJsonText raw)],
         ["Failed to parse AI response: " ++ e ++ "\nRaw Response: " ++ raw]) ∧
      (handleCallTool env "smart_incident" args).1.all
        (fun x => !x.isCreateRecord) = true ∧
      (∃ p, (handleCallTool env "smart_incident" args).2 = [p ++ raw])) := by
  refine ⟨?_, ?_⟩
  · intro b hb hm hg
    have h := smart_trace_take2 env args _ hm hg
    rw [extract_fenced b hb] at h
    exact h
  · intro raw e hm hg hj
    have key : runBody "smart_incident" args env [] =
        ([Effect.genContent (smartIncidentPrompt (argGet args "unstructured_text")),
          Effect.jsonLoads (extractJsonText raw)],
         Except.ok ["Failed to parse AI response: " ++ e ++ "\nRaw Response: " ++ raw]) := by
      unfold runBody
      simp only [String.reduceBEq, Bool.false_eq_true, if_false, if_true, reduceIte,
        bind_app, liftE_app, pure_app, modelIsConfigured, hm, Bool.not_true,
        genContentM, hg, tryCatchM, jsonLoadsM, hj, createRecordM,
        List.nil_append, List.singleton_append]
    have hh : handleCallTool env "smart_incident" args =
        ([Effect.genContent (smartIncidentPrompt (argGet args "unstructured_text")),
          Effect.jsonLoads (extractJsonText raw)],
         ["Failed to parse AI response: " ++ e ++ "\nRaw Response: " ++ raw]) := by
      unfold handleCallTool
      rw [key]
    refine ⟨hh, by rw [hh]; rfl, ?_⟩
    refine ⟨"Failed to parse AI response: " ++ e ++ "\nRaw Response: ", ?_⟩
    rw [hh]

theorem spec2_C1_boundary_witness :
    handleCallTool envListEmptyW "bogus_tool" [] =
      ([Effect.logError "Error executing tool bogus_tool: Unknown tool: bogus_tool"],
       ["Error: Unknown tool: bogus_tool"]) :=
  (spec2_C1_boundary envListEmptyW "bogus_tool" []).2.2.1 (by decide)

theorem spec2_C3_parent_child_creation_witness :
    handleCallTool envProducerW "create_record_producer" argsProducer3 =
      ([Effect.createRecord "sc_cat_item_producer" (producerParentData argsProducer3),
        Effect.createRecord "item_option_new" (prodChildData (Value.str "PID1")
          [("name", Value.str "v1"), ("label", Value.str "L1"), ("type", Value.str "choice")]),
        Effect.createRecord "item_option_new" (prodChildData (Value.str "PID1")
          [("name", Value.str "v2"), ("label", Value.str "L2"), ("type", Value.str "integer")]),
        Effect.createRecord "item_option_new" (prodChildData (Value.str "PID1")
          [("name", Value.str "v3"), ("label", Value.str "L3"), ("type", Value.str "string")])],
       ["Record Producer created: RP1 (sys_id: PID1) with variables: NV, NV, NV"]) ∧
    handleCallTool envProducerW "create_variable_set" argsProducer3 =
      ([Effect.createRecord "item_option_new_set" (variableSetParentData argsProducer3),
        Effect.createRecord "item_option_new" (setChildData (Value.str "SID1")
          [("name", Value.str "v1"), ("label", Value.str "L1"), ("type", Value.str "choice")]),
        Effect.createRecord "item_option_new" (setChildData (Value.str "SID1")
          [("name", Value.str "v2"), ("label", Value.str "L2"), ("type", Value.str "integer")]),
        Effect.createRecord "item_option_new" (setChildData (Value.str "SID1")
          [("name", Value.str "v3"), ("label", Value.str "L3"), ("type", Value.str "string")])],
       ["Variable Set created: VS1 (sys_id: SID1)"]) :=
  spec2_C3_parent_child_creation envProducerW argsProducer3
    [("sys_id", Value.str "PID1"), ("name", Value.str "RP1")]
    [("sys_id", Value.str "SID1"), ("name", Value.str "VS1")]
    [[("name", Value.str "v1"), ("label", Value.str "L1"), ("type", Value.str "choice")],
     [("name", Value.str "v2"), ("label", Value.str "L2"), ("type", Value.str "integer")],
     [("name", Value.str "v3"), ("label", Value.str "L3"), ("type", Value.str "string")]]
    (fun _ => "NV") rfl rfl (fun _ => rfl) rfl

theorem spec2_C4_get_incident_not_found_witness :
    handleCallTool envListEmptyW "get_incident" argsNum =
      ([Effect.listRecords "incident"
          [("sysparm_query", Value.str "number=INC0000001"), ("sysparm_limit", Value.num 1)]],
       ["Incident INC0000001 not found."]) ∧
    (runBody "get_incident" argsNum envListEmptyW []).2 =
      Except.ok ["Incident INC0000001 not found."] :=
  spec2_C4_get_incident_not_found envListEmptyW argsNum "INC0000001" rfl rfl rfl

theorem spec2_C5_list_incidents_query_witness :
    sentEffects envListEmptyW "list_incidents" argsPrio =
      [Effect.listRecords "incident"
        [("sysparm_query", Value.str "priority=1^state=2"), ("sysparm_limit", Value.num 10)]] ∧
    sentEffects envListEmptyW "list_incidents" [] =
      [Effect.listRecords "incident"
        [("sysparm_query", Value.str "ORDERBYDESCsys_created_on"),
         ("sysparm_limit", Value.num 10)]] ∧
    argGetD ([] : Args) "limit" (Value.num 10) = Value.num 10 :=
  ⟨(spec2_C5_list_incidents_query envListEmptyW argsPrio).1 rfl rfl,
   (spec2_C5_list_incidents_query envListEmptyW []).2.1 rfl rfl,
   (spec2_C5_list_incidents_query envListEmptyW []).2.2 rfl⟩

theorem spec2_C6_fence_extraction_witness :
    (handleCallTool envFenceW "smart_incident" argsSmart).1.take 2 =
      [Effect.genContent (smartIncidentPrompt (Value.str "printer broken")),
       Effect.jsonLoads "\x7b\"a\": 1\x7d"] ∧
    handleCallTool envFenceW "smart_incident" argsSmart =
      ([Effect.genContent (smartIncidentPrompt (Value.str "printer broken")),
        Effect.jsonLoads "\x7b\"a\": 1\x7d"],
       ["Failed to parse AI response: Expecting value: line 1 column 1 (char 0)\nRaw Response: ```json\n\x7b\"a\": 1\x7d\n```"]) :=
  ⟨(spec2_C6_fence_extraction envFenceW argsSmart).1 "\x7b\"a\": 1\x7d" (by decide) rfl rfl,
   ((spec2_C6_fence_extraction envFenceW argsSmart).2 "```json\n\x7b\"a\": 1\x7d\n```"
     "Expecting value: line 1 column 1 (char 0)" rfl rfl rfl).1⟩

theorem spec2_C7_variable_type_lookup_witness :
    childTypeCodes (sentEffects envProducerW "create_record_producer" argsProducer3) =
      [Value.num 1, Value.num 2, Value.num 6] :=
  (spec2_C7_variable_type_lookup envProducerW argsProducer3
    [("sys_id", Value.str "PID1"), ("name", Value.str "RP1")]
    [[("name", Value.str "v1"), ("label", Value.str "L1"), ("type", Value.str "choice")],
     [("name", Value.str "v2"), ("label", Value.str "L2"), ("type", Value.str "integer")],
     [("name", Value.str "v3"), ("label", Value.str "L3"), ("type", Value.str "string")]]
    (fun _ => "NV") rfl (fun _ => rfl) rfl).2.2

theorem spec2_C8_update_incident_payload_witness :
    sentEffects envListOneW "update_incident" argsUpdW =
      [Effect.listRecords "incident"
        [("sysparm_query", Value.str "number=INC0000001"), ("sysparm_limit", Value.num 1)],
       Effect.updateRecord "incident" (Value.str "SYS1")
        (Value.obj [("state", Value.str "2")])] ∧
    (argsUpdW.filter (fun p => !(p.1 == "number"))).all
      (fun p => !(p.1 == "number")) = true :=
  ⟨(spec2_C8_update_incident_payload envListOneW argsUpdW "INC0000001"
      [("sys_id", Value.str "SYS1")] [] rfl rfl).1,
   (spec2_C8_update_incident_payload envListOneW argsUpdW "INC0000001"
      [("sys_id", Value.str "SYS1")] [] rfl rfl).2.1⟩

theorem spec2_C9_get_incident_sys_id_precedence_witness :
    sentEffects envListEmptyW "get_incident" argsGetSid =
      [Effect.getRecord "incident" (Value.str "SYS9")] ∧
    (sentEffects envListEmptyW "get_incident" argsGetSid).all
      (fun e => !e.isListRecords) = true :=
  spec2_C9_get_incident_sys_id_precedence envListEmptyW argsGetSid rfl

theorem spec2_C10_create_error_under_parse_label_witness :
    handleCallTool envSmartCreateX "smart_incident" argsSmart =
      ([Effect.genContent (smartIncidentPrompt (Value.str "printer broken")),
        Effect.jsonLoads "\x7b\"short_description\": \"X\"\x7d",
        Effect.createRecord "incident" (Value.obj [("short_description", Value.str "X")])],
       ["Failed to parse AI response: 500 Server Error: Internal Server Error for url: https://example.service-now.com/api/now/table/incident\nRaw Response: \x7b\"short_description\": \"X\"\x7d"]) :=
  (spec2_C10_create_error_under_parse_label envSmartCreateX argsSmart
    "\x7b\"short_description\": \"X\"\x7d"
    (Value.obj [("short_description", Value.str "X")])
    "500 Server Error: Internal Server Error for url: https://example.service-now.com/api/now/table/incident"
    rfl rfl rfl rfl).2.1
